import Mathlib

/-!
Shallow embedding of the rusocks SOCKS4/4a/SOCKS5 server core.

Streams are modelled as byte lists (bytes are `Nat`, each octet `< 256` on the
real wire).  A read consumes a prefix of the input list; a failed read (EOF)
is the transport error.  Writes are accumulated into an output byte list.
Each definition mirrors one function of the Rust source, keeping its name
where Lean allows it.
-/

/-- src/src/socks5/method.rs `Method`: the RFC 1928 authentication method
byte.  Decoding (`From<u8>`) is total. -/
inductive Socks5Method : Type
  | None
  | GssApi
  | UserPass
  | IanaAssigned (v : Nat)
  | Private (v : Nat)
  | Unacceptable
deriving DecidableEq

/-- src/src/socks5/method.rs `impl From<u8> for Method` (the `0x03..=0x7f`
and `0x80..=0xfe` range arms keep the byte in the variant). -/
def Socks5Method.fromU8 (v : Nat) : Socks5Method :=
  if v = 0x00 then .None
  else if v = 0x01 then .GssApi
  else if v = 0x02 then .UserPass
  else if v ≤ 0x7f then .IanaAssigned v
  else if v ≤ 0xfe then .Private v
  else .Unacceptable

/-- src/src/socks5/method.rs `impl Into<u8> for Method`. -/
def Socks5Method.toU8 : Socks5Method → Nat
  | .None => 0x00
  | .GssApi => 0x01
  | .UserPass => 0x02
  | .IanaAssigned v => v
  | .Private v => v
  | .Unacceptable => 0xff

/-- src/src/socks5/addr_type.rs `Socks5AddrType` (ATYP octet). -/
inductive Socks5AddrType : Type
  | IPV4
  | Domain
  | IPV6
deriving DecidableEq

/-- The subset of the source error enum reachable from the embedded code
(src/src/error.rs and the variants used in src/src/socks4, src/src/socks5).
`IoError` stands for any `std::io::Error` (in this model: unexpected EOF). -/
inductive SocksError : Type
  | IoError
  | UnsupportedVersion (v : Nat)
  | UnsupportedMethods (ms : List Socks5Method)
  | AuthFailed
  | InvalidCommand (v : Nat)
  | UnsupportedCommand (v : Nat)
  | InvalidAddressType (v : Nat)
  | UnsupportedAddressType (t : Socks5AddrType)
  | Utf8BytesToStringError
  | ExecuteError
  | NotImplemented
deriving DecidableEq

/-- src/src/socks5/addr_type.rs `impl TryFrom<u8> for Socks5AddrType`. -/
def Socks5AddrType.tryFrom (code : Nat) : Except SocksError Socks5AddrType :=
  if code = 0x01 then .ok .IPV4
  else if code = 0x03 then .ok .Domain
  else if code = 0x04 then .ok .IPV6
  else .error (.InvalidAddressType code)

/-- src/src/socks5/addr_type.rs `impl From<Socks5AddrType> for u8`. -/
def Socks5AddrType.toU8 : Socks5AddrType → Nat
  | .IPV4 => 0x01
  | .Domain => 0x03
  | .IPV6 => 0x04

/-- src/src/socks5/command.rs `Socks5Command` (CMD octet). -/
inductive Socks5Command : Type
  | Connect
  | Bind
  | Associate
deriving DecidableEq

/-- src/src/socks5/command.rs `impl TryFrom<u8> for Socks5Command`. -/
def Socks5Command.tryFrom (value : Nat) : Except SocksError Socks5Command :=
  if value = 0x01 then .ok .Connect
  else if value = 0x02 then .ok .Bind
  else if value = 0x03 then .ok .Associate
  else .error (.InvalidCommand value)

/-- src/src/socks5/command.rs `impl Into<u8> for Socks5Command`. -/
def Socks5Command.toU8 : Socks5Command → Nat
  | .Connect => 0x01
  | .Bind => 0x02
  | .Associate => 0x03

/-- src/src/socks5/reply.rs `Socks5Reply` (REP octet), the nine RFC 1928
codes plus the `Unassigned(u8)` escape hatch. -/
inductive Socks5Reply : Type
  | Succeeded
  | Failure
  | NotAllowed
  | NetworkUnreachable
  | HostUnreachable
  | ConnectionRefused
  | TTLExpired
  | UnsupportedCommand
  | UnsupportedAddressType
  | Unassigned (v : Nat)
deriving DecidableEq

/-- src/src/socks5/reply.rs `impl Into<u8> for Socks5Reply`. -/
def Socks5Reply.toU8 : Socks5Reply → Nat
  | .Succeeded => 0x00
  | .Failure => 0x01
  | .NotAllowed => 0x02
  | .NetworkUnreachable => 0x03
  | .HostUnreachable => 0x04
  | .ConnectionRefused => 0x05
  | .TTLExpired => 0x06
  | .UnsupportedCommand => 0x07
  | .UnsupportedAddressType => 0x08
  | .Unassigned v => v

/-- Parsed destination address, src/src/addr.rs `SocksAddr`.
`IPV4` carries the 4 IP octets, `IPV6` the 8 big-endian 16-bit segments,
`Domain` the raw bytes of the UTF-8 host name. -/
inductive SocksAddr : Type
  | IPV4 (ip : List Nat) (port : Nat)
  | Domain (name : List Nat) (port : Nat)
  | IPV6 (segs : List Nat) (port : Nat)
deriving DecidableEq

/-- A bound socket address (`std::net::SocketAddr`): the IP octets
(4 for V4, 16 for V6, as `.octets()` yields them) and the port. -/
inductive SocketAddr : Type
  | V4 (octets : List Nat) (port : Nat)
  | V6 (octets : List Nat) (port : Nat)
deriving DecidableEq

/-- `u16::to_be_bytes`: big-endian encoding of a 16-bit port. -/
def u16be (p : Nat) : List Nat :=
  [p / 256 % 256, p % 256]

/-- `u8::from(bool)`: `true` is 1, `false` is 0. -/
def boolToU8 (b : Bool) : Nat :=
  if b then 1 else 0

/-- `stream.read_u8()`: one byte, or EOF. -/
def readU8 : List Nat → Option (Nat × List Nat)
  | [] => none
  | b :: rest => some (b, rest)

/-- `stream.read_u16()` (tokio `AsyncReadExt`): two bytes, big-endian. -/
def readU16be : List Nat → Option (Nat × List Nat)
  | b0 :: b1 :: rest => some (b0 * 256 + b1, rest)
  | _ => none

/-- `stream.read_exact(&mut buf)` for a buffer of `n` bytes: the next `n`
bytes of the input, or EOF when fewer remain. -/
def readExact : Nat → List Nat → Option (List Nat × List Nat)
  | 0, l => some ([], l)
  | _ + 1, [] => none
  | n + 1, b :: l =>
    match readExact n l with
    | some (buf, r) => some (b :: buf, r)
    | none => none

/-- The octet-by-octet loop reading until the first NUL byte
(src/src/socks4/mod.rs `handshake_request`): returns the bytes before
the NUL and the remaining input, or EOF if no NUL arrives. -/
def readUntilNul : List Nat → Option (List Nat × List Nat)
  | [] => none
  | b :: rest =>
    if b = 0 then some ([], rest)
    else
      match readUntilNul rest with
      | some (buf, r) => some (b :: buf, r)
      | none => none

/-- The eight `u16::from_be_bytes` calls building an `Ipv6Addr` from 16
octets: fold consecutive byte pairs into big-endian 16-bit segments. -/
def pairsBE : List Nat → List Nat
  | a :: b :: rest => (a * 256 + b) :: pairsBE rest
  | _ => []

/-- A UTF-8 continuation byte, `0x80..=0xBF`. -/
def isCont (b : Nat) : Bool :=
  decide (0x80 ≤ b ∧ b ≤ 0xbf)

/-- `String::from_utf8` validity: strict UTF-8 (shortest forms, no
surrogates, max U+10FFFF), as validated by Rust's standard library. -/
def isValidUtf8 : List Nat → Bool
  | [] => true
  | b :: rest =>
    if b ≤ 0x7f then isValidUtf8 rest
    else if 0xc2 ≤ b ∧ b ≤ 0xdf then
      match rest with
      | c1 :: r => isCont c1 && isValidUtf8 r
      | [] => false
    else if b = 0xe0 then
      match rest with
      | c1 :: c2 :: r => decide (0xa0 ≤ c1 ∧ c1 ≤ 0xbf) && isCont c2 && isValidUtf8 r
      | _ => false
    else if (0xe1 ≤ b ∧ b ≤ 0xec) ∨ b = 0xee ∨ b = 0xef then
      match rest with
      | c1 :: c2 :: r => isCont c1 && isCont c2 && isValidUtf8 r
      | _ => false
    else if b = 0xed then
      match rest with
      | c1 :: c2 :: r => decide (0x80 ≤ c1 ∧ c1 ≤ 0x9f) && isCont c2 && isValidUtf8 r
      | _ => false
    else if b = 0xf0 then
      match rest with
      | c1 :: c2 :: c3 :: r =>
        decide (0x90 ≤ c1 ∧ c1 ≤ 0xbf) && isCont c2 && isCont c3 && isValidUtf8 r
      | _ => false
    else if 0xf1 ≤ b ∧ b ≤ 0xf3 then
      match rest with
      | c1 :: c2 :: c3 :: r => isCont c1 && isCont c2 && isCont c3 && isValidUtf8 r
      | _ => false
    else if b = 0xf4 then
      match rest with
      | c1 :: c2 :: c3 :: r =>
        decide (0x80 ≤ c1 ∧ c1 ≤ 0x8f) && isCont c2 && isCont c3 && isValidUtf8 r
      | _ => false
    else false

/-- src/src/socks5/reply.rs `Socks5Reply::reply`: the 10- or 22-byte v5
reply frame `VER | REP | RSV=0 | ATYP | BND.ADDR | BND.PORT(be)` for the
given bound socket address. -/
def replyBytes (r : Socks5Reply) (bind_addr : SocketAddr) : List Nat :=
  match bind_addr with
  | .V4 o p => [0x05, r.toU8, 0x00, Socks5AddrType.toU8 .IPV4] ++ o ++ u16be p
  | .V6 o p => [0x05, r.toU8, 0x00, Socks5AddrType.toU8 .IPV6] ++ o ++ u16be p

/-- src/src/socks5/mod.rs `negotiate_method_reply`: the two-byte method
selection message `VER=0x05 | METHOD`. -/
def methodReplyBytes (m : Socks5Method) : List Nat :=
  [0x05, m.toU8]

/-- src/src/socks5/mod.rs trait `Socks5Handler`: the policy hooks the
embedder supplies.  Hooks return `Except` like the fallible Rust methods. -/
structure Socks5Handler : Type where
  negotiate_method : List Socks5Method → Except SocksError Socks5Method
  auth_by_user_pass : List Nat → List Nat → Except SocksError Bool
  allow_command : Socks5Command → Except SocksError Bool
  allow_addr_type : Socks5AddrType → Except SocksError Bool

/-- The default hook bodies of trait `Socks5Handler`: pick `None` when the
client offers it, deny username/password, allow every command and address
type. -/
def defaultHandler : Socks5Handler where
  negotiate_method := fun methods =>
    if Socks5Method.None ∈ methods then .ok .None
    else .error (.UnsupportedMethods methods)
  auth_by_user_pass := fun _ _ => .ok false
  allow_command := fun _ => .ok true
  allow_addr_type := fun _ => .ok true

/-- Result of one phase of the state machine: a value, a returned error, or
a `todo!()` / `unimplemented!()` panic in the source. -/
inductive StepResult (α : Type) : Type
  | ok (a : α)
  | err (e : SocksError)
  | panicked
deriving DecidableEq

/-- src/src/socks5/mod.rs `HandshakeError`: an error paired with the v5
reply to emit.  The blanket `From<SocksError>` / `From<io::Error>`
conversions pick `Socks5Reply::Failure`. -/
structure HandshakeError : Type where
  err : SocksError
  reply : Socks5Reply
deriving DecidableEq

namespace Socks5

/-- src/src/socks5/mod.rs `Socks5::negotiate_method`: read `NMETHODS`, then
that many method octets, decode each (total), ask the handler, and coerce a
choice outside the client's list to `Unacceptable`. -/
def negotiate_method (h : Socks5Handler) (input : List Nat) :
    Except SocksError (Socks5Method × List Nat) :=
  match readU8 input with
  | none => .error .IoError
  | some (method_length, r1) =>
    match readExact method_length r1 with
    | none => .error .IoError
    | some (mbytes, r2) =>
      let methods := mbytes.map Socks5Method.fromU8
      match h.negotiate_method methods with
      | .error e => .error e
      | .ok method =>
        if method ∈ methods then .ok (method, r2)
        else .ok (.Unacceptable, r2)

/-- src/src/socks5/mod.rs `Socks5::auth_by_user_pass`: read
`ULEN | UNAME | PLEN | PASSWD`, UTF-8 decode both, and ask the handler. -/
def auth_by_user_pass (h : Socks5Handler) (input : List Nat) :
    StepResult (Bool × List Nat) :=
  match readU8 input with
  | none => .err .IoError
  | some (username_length, r1) =>
    match readExact username_length r1 with
    | none => .err .IoError
    | some (username, r2) =>
      if isValidUtf8 username then
        match readU8 r2 with
        | none => .err .IoError
        | some (password_length, r3) =>
          match readExact password_length r3 with
          | none => .err .IoError
          | some (password, r4) =>
            if isValidUtf8 password then
              match h.auth_by_user_pass username password with
              | .ok is_success => .ok (is_success, r4)
              | .error e => .err e
            else .err .Utf8BytesToStringError
      else .err .Utf8BytesToStringError

/-- src/src/socks5/mod.rs `Socks5::auth`: skip for method `None`; otherwise
check the sub-negotiation version octet is 0x01 and dispatch on the method
(`todo!()` panic for everything but username/password). -/
def auth (h : Socks5Handler) (method : Socks5Method) (input : List Nat) :
    StepResult (Bool × List Nat) :=
  if method = .None then .ok (true, input)
  else
    match readU8 input with
    | none => .err .IoError
    | some (version, r1) =>
      if version = 0x01 then
        match method with
        | .UserPass => auth_by_user_pass h r1
        | _ => .panicked
      else .err (.UnsupportedVersion version)

/-- src/src/socks5/mod.rs `Socks5::auth_reply`: nothing for method `None`;
for username/password the two bytes `0x01 | u8::from(is_success)`; a
`todo!()` panic otherwise. -/
def auth_reply (method : Socks5Method) (is_success : Bool) :
    StepResult (List Nat) :=
  if method = .None then .ok []
  else
    match method with
    | .UserPass => .ok [0x01, boolToU8 is_success]
    | _ => .panicked

/-- src/src/socks5/mod.rs `Socks5::negotiate_request`: parse
`VER | CMD | RSV | ATYP | DST.ADDR | DST.PORT`, consulting the handler's
`allow_command` and `allow_addr_type` hooks; errors carry the reply the
caller will emit. -/
def negotiate_request (h : Socks5Handler) (input : List Nat) :
    Except HandshakeError ((Socks5Command × SocksAddr) × List Nat) :=
  match readU8 input with
  | none => .error ⟨.IoError, .Failure⟩
  | some (version, r1) =>
    if version = 0x05 then
      match readU8 r1 with
      | none => .error ⟨.IoError, .Failure⟩
      | some (cb, r2) =>
        match Socks5Command.tryFrom cb with
        | .error e => .error ⟨e, .Failure⟩
        | .ok command =>
          match h.allow_command command with
          | .error _ => .error ⟨.ExecuteError, .Failure⟩
          | .ok is_support_command =>
            if is_support_command then
              match readU8 r2 with
              | none => .error ⟨.IoError, .Failure⟩
              | some (_, r3) =>
                match readU8 r3 with
                | none => .error ⟨.IoError, .Failure⟩
                | some (atb, r4) =>
                  match Socks5AddrType.tryFrom atb with
                  | .error e => .error ⟨e, .Failure⟩
                  | .ok addr_type =>
                    match h.allow_addr_type addr_type with
                    | .error _ => .error ⟨.ExecuteError, .Failure⟩
                    | .ok is_support_addr_type =>
                      if is_support_addr_type then
                        match addr_type with
                        | .IPV4 =>
                          match readExact 4 r4 with
                          | none => .error ⟨.IoError, .Failure⟩
                          | some (buf, r5) =>
                            match readU16be r5 with
                            | none => .error ⟨.IoError, .Failure⟩
                            | some (port, r6) =>
                              .ok ((command, .IPV4 buf port), r6)
                        | .Domain =>
                          match readU8 r4 with
                          | none => .error ⟨.IoError, .Failure⟩
                          | some (length, r5) =>
                            match readExact length r5 with
                            | none => .error ⟨.IoError, .Failure⟩
                            | some (buf, r6) =>
                              if isValidUtf8 buf then
                                match readU16be r6 with
                                | none => .error ⟨.IoError, .Failure⟩
                                | some (port, r7) =>
                                  .ok ((command, .Domain buf port), r7)
                              else .error ⟨.Utf8BytesToStringError, .Failure⟩
                        | .IPV6 =>
                          match readExact 16 r4 with
                          | none => .error ⟨.IoError, .Failure⟩
                          | some (buf, r5) =>
                            match readU16be r5 with
                            | none => .error ⟨.IoError, .Failure⟩
                            | some (port, r6) =>
                              .ok ((command, .IPV6 (pairsBE buf) port), r6)
                      else
                        .error ⟨.UnsupportedAddressType addr_type,
                                .UnsupportedAddressType⟩
            else
              .error ⟨.UnsupportedCommand command.toU8, .UnsupportedCommand⟩
    else .error ⟨.UnsupportedVersion version, .Failure⟩

/-- Outcome of `Socks5::negotiate` up to command dispatch: `executed` means
the request phase completed and the matching command handler was entered;
`failed` propagates the error (so `Socks5::execute` shuts the stream down);
`panicked` marks a `todo!()` in the source. -/
inductive NegotiateOutcome : Type
  | executed (command : Socks5Command) (address : SocksAddr)
  | failed (e : SocksError)
  | panicked
deriving DecidableEq

/-- src/src/socks5/mod.rs `Socks5::negotiate` up to command dispatch.
Returns the outcome and every byte written to the client: the method reply,
then the auth sub-negotiation reply, then (on a failed request phase) the
v5 reply frame carried by the `HandshakeError`. -/
def negotiate (h : Socks5Handler) (local_addr : SocketAddr)
    (input : List Nat) : NegotiateOutcome × List Nat :=
  match negotiate_method h input with
  | .error e => (.failed e, methodReplyBytes .Unacceptable)
  | .ok (method, r1) =>
    match auth h method r1 with
    | .panicked => (.panicked, methodReplyBytes method)
    | .err e =>
      match auth_reply method false with
      | .ok bs => (.failed e, methodReplyBytes method ++ bs)
      | _ => (.panicked, methodReplyBytes method)
    | .ok (is_success, r2) =>
      match auth_reply method is_success with
      | .ok bs =>
        match negotiate_request h r2 with
        | .error he =>
          (.failed he.err,
           methodReplyBytes method ++ bs ++ replyBytes he.reply local_addr)
        | .ok ((command, address), _) =>
          (.executed command address, methodReplyBytes method ++ bs)
      | _ => (.panicked, methodReplyBytes method)

end Socks5

/-- src/src/socks4/command.rs `Socks4Command` (CD octet). -/
inductive Socks4Command : Type
  | Connect
  | Bind
deriving DecidableEq

/-- src/src/socks4/command.rs `impl TryFrom<u8> for Socks4Command`. -/
def Socks4Command.tryFrom (value : Nat) : Except SocksError Socks4Command :=
  if value = 0x01 then .ok .Connect
  else if value = 0x02 then .ok .Bind
  else .error (.InvalidCommand value)

/-- src/src/socks4/command.rs `impl Into<u8> for Socks4Command`. -/
def Socks4Command.toU8 : Socks4Command → Nat
  | .Connect => 0x01
  | .Bind => 0x02

/-- src/src/socks4/reply.rs `Socks4Reply` (CD octet of the v4 reply). -/
inductive Socks4Reply : Type
  | Granted
  | Rejected
  | RejectedByCannotConnectIdentd
  | RejectedByIdentdReportDifferentUserIds
deriving DecidableEq

/-- src/src/socks4/reply.rs `impl From<u8> for Socks4Reply` (any byte
outside the four listed codes decodes to `Rejected`). -/
def Socks4Reply.fromU8 (value : Nat) : Socks4Reply :=
  if value = 0x5a then .Granted
  else if value = 0x5b then .Rejected
  else if value = 0x5c then .RejectedByCannotConnectIdentd
  else if value = 0x5f then .RejectedByIdentdReportDifferentUserIds
  else .Rejected

/-- src/src/socks4/reply.rs `impl Into<u8> for Socks4Reply`. -/
def Socks4Reply.toU8 : Socks4Reply → Nat
  | .Granted => 0x5a
  | .Rejected => 0x5b
  | .RejectedByCannotConnectIdentd => 0x5c
  | .RejectedByIdentdReportDifferentUserIds => 0x5f

/-- src/src/socks4/reply.rs `Socks4Reply::reply` (identical byte layout in
src/src/socks4/request.rs `Socks4Request::reply`): the v4 reply frame
`0x00 | CD | DSTPORT(be) | ip.octets()` for the given bound address. -/
def socks4ReplyBytes (r : Socks4Reply) (bind_addr : SocketAddr) : List Nat :=
  match bind_addr with
  | .V4 o p => [0x00, r.toU8] ++ u16be p ++ o
  | .V6 o p => [0x00, r.toU8] ++ u16be p ++ o

/-- src/src/socks4/mod.rs trait `Socks4Handler`: the policy hooks used by
the v4 request parser and authorization step. -/
structure Socks4Handler : Type where
  allow_command : Socks4Command → Except SocksError Bool
  identd : List Nat → Except SocksError Bool

/-- The default hook bodies of trait `Socks4Handler`: allow every command,
accept every user id. -/
def defaultSocks4Handler : Socks4Handler where
  allow_command := fun _ => .ok true
  identd := fun _ => .ok true

namespace Socks4

/-- src/src/socks4/mod.rs `Socks4::handshake_request`: parse
`CD | DSTPORT(be) | DSTIP(4) | USERID NUL [HOSTNAME NUL]` after the version
octet; the SOCKS4a marker `0.0.0.x, x ≠ 0` switches to the hostname form. -/
def handshake_request (h : Socks4Handler) (input : List Nat) :
    Except SocksError ((Socks4Command × SocksAddr × List Nat) × List Nat) :=
  match readU8 input with
  | none => .error .IoError
  | some (cb, r1) =>
    match Socks4Command.tryFrom cb with
    | .error e => .error e
    | .ok command =>
      match h.allow_command command with
      | .error e => .error e
      | .ok is_support_command =>
        if is_support_command then
          match readU16be r1 with
          | none => .error .IoError
          | some (port, r2) =>
            match readU8 r2 with
            | none => .error .IoError
            | some (i0, r3) =>
              match readU8 r3 with
              | none => .error .IoError
              | some (i1, r4) =>
                match readU8 r4 with
                | none => .error .IoError
                | some (i2, r5) =>
                  match readU8 r5 with
                  | none => .error .IoError
                  | some (i3, r6) =>
                    match readUntilNul r6 with
                    | none => .error .IoError
                    | some (uid, r7) =>
                      if isValidUtf8 uid then
                        if i0 = 0 ∧ i1 = 0 ∧ i2 = 0 ∧ i3 ≠ 0 then
                          match readUntilNul r7 with
                          | none => .error .IoError
                          | some (dom, r8) =>
                            if isValidUtf8 dom then
                              .ok ((command, .Domain dom port, uid), r8)
                            else .error .Utf8BytesToStringError
                        else
                          .ok ((command, .IPV4 [i0, i1, i2, i3] port, uid), r7)
                      else .error .Utf8BytesToStringError
        else .error (.UnsupportedCommand command.toU8)

end Socks4

/-- A handler whose `negotiate_method` hook selects username/password and
whose `auth_by_user_pass` hook rejects every credential pair; the other
hooks keep their trait defaults. -/
def userPassDenyHandler : Socks5Handler where
  negotiate_method := fun _ => .ok .UserPass
  auth_by_user_pass := fun _ _ => .ok false
  allow_command := fun _ => .ok true
  allow_addr_type := fun _ => .ok true

theorem readExact_append (l r : List Nat) :
    readExact l.length (l ++ r) = some (l, r) := by
  induction l with
  | nil => rfl
  | cons b t ih => simp [readExact, ih]

theorem readUntilNul_append (buf rest : List Nat) (h : ¬ 0 ∈ buf) :
    readUntilNul (buf ++ 0 :: rest) = some (buf, rest) := by
  induction buf with
  | nil => simp [readUntilNul]
  | cons b t ih =>
    simp only [List.mem_cons, not_or] at h
    obtain ⟨h1, h2⟩ := h
    have hb : ¬ b = 0 := fun e => h1 e.symm
    simp [readUntilNul, hb, ih h2]

/-- C1.  The claim says that when the `auth_by_user_pass` hook returns
`false` the server closes right after the status reply and never reads a
SOCKS5 request.  The code (src/src/socks5/mod.rs lines 239-247) only
aborts when the hook ERRORS; on `Ok(false)` it writes the status reply and
falls through to `negotiate_request`.  Evaluated at the spec's scenario-3
bytes with a rejecting handler, the negotiation reaches the request phase
and dispatches the parsed CONNECT: outcome `executed`, not a close.  (The
status byte written is `boolToU8 false = 0x00`, visible in the output.) -/
theorem socks5_auth_false_reaches_request_phase :
    Socks5.negotiate userPassDenyHandler (.V4 [127, 0, 0, 1] 1080)
        [1, 2, 1, 1, 0x75, 2, 0x70, 0x77, 5, 1, 0, 1, 127, 0, 0, 1, 0, 80]
      = (.executed .Connect (.IPV4 [127, 0, 0, 1] 80), [5, 2, 1, 0]) := by
  rfl

/-- C2.  The claim says the RFC 1929 status byte is 0x00 exactly on
success.  The code (src/src/socks5/mod.rs `auth_reply`) writes
`u8::from(is_success)`, i.e. 0x01 on success and 0x00 on failure — the
inverse of the claim, for both boolean outcomes of the hook. -/
theorem socks5_auth_reply_status_inverted :
    Socks5.auth_reply .UserPass true = .ok [0x01, 0x01]
    ∧ Socks5.auth_reply .UserPass false = .ok [0x01, 0x00]
    ∧ (0x01 : Nat) ≠ 0x00 := by
  exact ⟨rfl, rfl, by decide⟩

/-- C5.  The claim says the identd user-id mismatch reply encodes to 0x5D
and 0x5D decodes back to it.  The code (src/src/socks4/reply.rs) encodes
`RejectedByIdentdReportDifferentUserIds` as 0x5F, and decodes 0x5D through
the catch-all arm to `Rejected` — even though the code's own doc comment
documents the mismatch code as 93 (= 0x5D). -/
theorem socks4_identd_mismatch_code_is_0x5f :
    Socks4Reply.toU8 .RejectedByIdentdReportDifferentUserIds = 0x5f
    ∧ (0x5f : Nat) ≠ 0x5d
    ∧ Socks4Reply.fromU8 0x5d = .Rejected
    ∧ Socks4Reply.Rejected ≠ .RejectedByIdentdReportDifferentUserIds := by
  exact ⟨rfl, by decide, rfl, by decide⟩

/-- C6.  The claim says a v4 reply for an IPv6 bound address carries DSTIP
0.0.0.0 and is exactly 8 bytes.  The code (src/src/socks4/reply.rs
`Socks4Reply::reply`, same layout in src/src/socks4/request.rs) writes all
16 octets of the IPv6 address, producing a 20-byte frame — here evaluated
at a `Granted` reply for bound address [::1]:80. -/
theorem socks4_reply_v6_writes_20_bytes :
    socks4ReplyBytes .Granted
        (.V6 [0, 0, 0, 0, 0, 0, 0, 0, 0, 0, 0, 0, 0, 0, 0, 1] 80)
      = [0, 0x5a, 0, 80, 0, 0, 0, 0, 0, 0, 0, 0, 0, 0, 0, 0, 0, 0, 0, 1]
    ∧ (socks4ReplyBytes .Granted
        (.V6 [0, 0, 0, 0, 0, 0, 0, 0, 0, 0, 0, 0, 0, 0, 0, 1] 80)).length
      = 20
    ∧ (20 : Nat) ≠ 8 := by
  exact ⟨rfl, rfl, by decide⟩

/-- C3 counterexample.  At the spec's scenario-6 bytes (greeting `01 00`,
request `05 09 00 01 ...`), the invalid CMD 0x09 fails in
`Socks5Command::try_from`, whose error converts via the blanket
`From<SocksError> for HandshakeError` to `Socks5Reply::Failure`; the reply
frame the server writes therefore has REP = 0x01, not 0x07 as claimed. -/
theorem socks5_bad_cmd_rep_not_0x07 :
    Socks5.negotiate defaultHandler (.V4 [0, 0, 0, 0] 0)
        [1, 0, 5, 9, 0, 1, 0, 0, 0, 0, 0, 0]
      = (.failed (.InvalidCommand 9),
         [5, 0] ++ replyBytes .Failure (.V4 [0, 0, 0, 0] 0))
    ∧ (replyBytes .Failure (.V4 [0, 0, 0, 0] 0))[1]? = some 0x01
    ∧ (replyBytes .Failure (.V4 [0, 0, 0, 0] 0))[1]? ≠ some 0x07 := by
  exact ⟨rfl, rfl, by decide⟩

/-- C4 counterexample.  For a request whose version octet is 0x04 the claim
says no reply bytes are written; instead `negotiate` writes the 10-byte
`Failure` reply carried by the `HandshakeError` built from
`UnsupportedVersion` before aborting: after the 2-byte method selection
message `05 00`, ten more bytes reach the client. -/
theorem socks5_bad_version_writes_reply :
    Socks5.negotiate defaultHandler (.V4 [127, 0, 0, 1] 1080) [1, 0, 4]
      = (.failed (.UnsupportedVersion 4),
         [5, 0, 5, 1, 0, 1, 127, 0, 0, 1, 4, 56])
    ∧ List.drop 2 [5, 0, 5, 1, 0, 1, 127, 0, 0, 1, 4, 56] ≠ ([] : List Nat)
  := by
  exact ⟨rfl, by decide⟩

/-- C9 counterexample.  The claim says every parsed Domain name is nonempty
and the v5 length octet lies in 1..=255.  The v5 parser accepts L = 0: the
request `05 01 00 03 00 00 50` parses to `Domain` with an empty name and
port 80, so L = 0 is accepted and the constructed name is empty. -/
theorem socks5_domain_length_zero_parses :
    Socks5.negotiate_request defaultHandler [5, 1, 0, 3, 0, 0, 80]
      = .ok ((.Connect, .Domain [] 80), [])
    ∧ ¬ (1 ≤ ([] : List Nat).length) := by
  exact ⟨rfl, by decide⟩

/-- C8.  src/src/socks5/method.rs: decoding any byte through
`From<u8> for Method` is total by construction (`Socks5Method.fromU8`
returns a `Socks5Method` for every input), and re-encoding through
`Into<u8>` returns the original byte for every `b < 256`. -/
theorem socks5_method_roundtrip (b : Nat) (h : b < 256) :
    (Socks5Method.fromU8 b).toU8 = b := by
  unfold Socks5Method.fromU8
  split_ifs with h0 h1 h2 h3 h4 <;> simp [Socks5Method.toU8] <;> omega

/-- C8 witness: the round-trip theorem applied at the concrete byte 0x42. -/
theorem socks5_method_roundtrip_witness :
    0x42 < 256 ∧ (Socks5Method.fromU8 0x42).toU8 = 0x42 :=
  ⟨by decide, socks5_method_roundtrip 0x42 (by decide)⟩

/-- C10.  src/src/socks5/mod.rs `negotiate_request` reads the RSV octet
(the third byte of the request) and discards it: for every handler and
every pair of inputs differing only in that octet, the parse result —
success with the same command and address, or the very same error — is
identical, so no request is ever rejected for its RSV value. -/
theorem socks5_rsv_ignored (h : Socks5Handler) (v c r1 r2 : Nat)
    (rest : List Nat) :
    Socks5.negotiate_request h (v :: c :: r1 :: rest)
      = Socks5.negotiate_request h (v :: c :: r2 :: rest) := by
  rfl

theorem negotiate_noauth (la : SocketAddr) (rest : List Nat) :
    Socks5.negotiate defaultHandler la (1 :: 0 :: rest)
      = match Socks5.negotiate_request defaultHandler rest with
        | .error he => (.failed he.err, [5, 0] ++ replyBytes he.reply la)
        | .ok ((command, address), _) =>
          (.executed command address, [5, 0]) := by
  rfl

theorem negotiate_request_bad_version (h : Socks5Handler) (v : Nat)
    (rest : List Nat) (hv : v ≠ 5) :
    Socks5.negotiate_request h (v :: rest)
      = .error ⟨.UnsupportedVersion v, .Failure⟩ := by
  simp [Socks5.negotiate_request, readU8, hv]

theorem negotiate_request_bad_cmd (h : Socks5Handler) (c : Nat)
    (rest : List Nat) (h1 : c ≠ 1) (h2 : c ≠ 2) (h3 : c ≠ 3) :
    Socks5.negotiate_request h (5 :: c :: rest)
      = .error ⟨.InvalidCommand c, .Failure⟩ := by
  simp [Socks5.negotiate_request, readU8, Socks5Command.tryFrom, h1, h2, h3]

/-- C3 amended.  For a v5 request with version 0x05 and a CMD octet outside
{0x01, 0x02, 0x03}, the server (default policy, no-auth greeting) writes
exactly one 10-byte v5 reply whose REP field is 0x01 — general failure, via
the blanket `From<SocksError> for HandshakeError` — not 0x07, and then the
negotiation fails (so `Socks5::execute` shuts the stream down). -/
theorem socks5_bad_cmd_failure_reply (c a b c2 d p : Nat) (rest : List Nat)
    (h1 : c ≠ 1) (h2 : c ≠ 2) (h3 : c ≠ 3) :
    Socks5.negotiate defaultHandler (.V4 [a, b, c2, d] p)
        (1 :: 0 :: 5 :: c :: rest)
      = (.failed (.InvalidCommand c),
         [5, 0] ++ replyBytes .Failure (.V4 [a, b, c2, d] p))
    ∧ (replyBytes .Failure (.V4 [a, b, c2, d] p)).length = 10
    ∧ (replyBytes .Failure (.V4 [a, b, c2, d] p))[1]? = some 0x01 := by
  refine ⟨?_, rfl, rfl⟩
  rw [negotiate_noauth, negotiate_request_bad_cmd _ _ _ h1 h2 h3]

/-- C3 witness: the amended theorem applied at the spec's scenario-6 CMD
byte 0x09 with local address 0.0.0.0:0. -/
theorem socks5_bad_cmd_failure_reply_witness :
    Socks5.negotiate defaultHandler (.V4 [0, 0, 0, 0] 0)
        (1 :: 0 :: 5 :: 9 :: [0, 1, 0, 0, 0, 0, 0, 0])
      = (.failed (.InvalidCommand 9),
         [5, 0] ++ replyBytes .Failure (.V4 [0, 0, 0, 0] 0))
    ∧ (replyBytes .Failure (.V4 [0, 0, 0, 0] 0)).length = 10
    ∧ (replyBytes .Failure (.V4 [0, 0, 0, 0] 0))[1]? = some 0x01 :=
  socks5_bad_cmd_failure_reply 9 0 0 0 0 0 [0, 1, 0, 0, 0, 0, 0, 0]
    (by decide) (by decide) (by decide)

/-- C4 amended.  For a v5 request whose version octet differs from 0x05,
the server (default policy, no-auth greeting) does not abort silently: it
writes one 10-byte v5 reply with REP 0x01 (the `Failure` reply carried by
the `HandshakeError` built from `UnsupportedVersion`) and then the
negotiation fails, closing the connection. -/
theorem socks5_bad_version_failure_reply (v a b c d p : Nat)
    (rest : List Nat) (hv : v ≠ 5) :
    Socks5.negotiate defaultHandler (.V4 [a, b, c, d] p)
        (1 :: 0 :: v :: rest)
      = (.failed (.UnsupportedVersion v),
         [5, 0] ++ replyBytes .Failure (.V4 [a, b, c, d] p))
    ∧ (replyBytes .Failure (.V4 [a, b, c, d] p)).length = 10 := by
  refine ⟨?_, rfl⟩
  rw [negotiate_noauth, negotiate_request_bad_version _ _ _ hv]

/-- C4 witness: the amended theorem applied at version byte 0x04 with local
address 127.0.0.1:1080. -/
theorem socks5_bad_version_failure_reply_witness :
    Socks5.negotiate defaultHandler (.V4 [127, 0, 0, 1] 1080)
        (1 :: 0 :: 4 :: [])
      = (.failed (.UnsupportedVersion 4),
         [5, 0] ++ replyBytes .Failure (.V4 [127, 0, 0, 1] 1080))
    ∧ (replyBytes .Failure (.V4 [127, 0, 0, 1] 1080)).length = 10 :=
  socks5_bad_version_failure_reply 4 127 0 0 1 1080 [] (by decide)

/-- C7.  src/src/socks4/mod.rs `handshake_request`: for any accepted
command, port bytes, DSTIP octets and NUL-free UTF-8 user id — when DSTIP
is `0.0.0.x` with `x ≠ 0`, a second NUL-terminated UTF-8 string is read
after USERID and the result is `Domain(hostname, DSTPORT)` (big-endian
port); for every other DSTIP the result is the IPv4 address
`(DSTIP, DSTPORT)` and nothing further is consumed. -/
theorem socks4_request_address_parse
    (h : Socks4Handler) (cb : Nat) (command : Socks4Command)
    (p1 p2 i0 i1 i2 i3 : Nat) (uid : List Nat)
    (hcb : Socks4Command.tryFrom cb = .ok command)
    (hallow : h.allow_command command = .ok true)
    (huid : ¬ 0 ∈ uid) (huidu : isValidUtf8 uid = true) :
    (∀ hn rest : List Nat, i0 = 0 → i1 = 0 → i2 = 0 → i3 ≠ 0 →
        ¬ 0 ∈ hn → isValidUtf8 hn = true →
        Socks4.handshake_request h
            (cb :: p1 :: p2 :: i0 :: i1 :: i2 :: i3 ::
              (uid ++ 0 :: (hn ++ 0 :: rest)))
          = .ok ((command, .Domain hn (p1 * 256 + p2), uid), rest))
    ∧ (∀ rest : List Nat, ¬ (i0 = 0 ∧ i1 = 0 ∧ i2 = 0 ∧ i3 ≠ 0) →
        Socks4.handshake_request h
            (cb :: p1 :: p2 :: i0 :: i1 :: i2 :: i3 :: (uid ++ 0 :: rest))
          = .ok ((command, .IPV4 [i0, i1, i2, i3] (p1 * 256 + p2), uid),
                 rest)) := by
  constructor
  · intro hn rest e0 e1 e2 e3 hhn hhnu
    subst e0; subst e1; subst e2
    simp [Socks4.handshake_request, readU8, readU16be, hcb, hallow,
      readUntilNul_append _ _ huid, huidu, readUntilNul_append _ _ hhn,
      hhnu, e3]
  · intro rest hmark
    simp [Socks4.handshake_request, readU8, readU16be, hcb, hallow,
      readUntilNul_append _ _ huid, huidu, hmark]

/-- C7 witness: the theorem's SOCKS4a branch applied to the spec's
scenario-5 bytes — CONNECT, port 80, DSTIP 0.0.0.7, user id "x", hostname
"example.com". -/
theorem socks4_request_address_parse_witness :
    Socks4.handshake_request defaultSocks4Handler
        (1 :: 0 :: 80 :: 0 :: 0 :: 0 :: 7 ::
          ([0x78] ++ 0 ::
            ([101, 120, 97, 109, 112, 108, 101, 46, 99, 111, 109] ++
              0 :: [])))
      = .ok ((.Connect,
              .Domain [101, 120, 97, 109, 112, 108, 101, 46, 99, 111, 109]
                (0 * 256 + 80),
              [0x78]), []) :=
  (socks4_request_address_parse defaultSocks4Handler 1 .Connect 0 80 0 0 0 7
      [0x78] rfl rfl (by decide) rfl).1
    [101, 120, 97, 109, 112, 108, 101, 46, 99, 111, 109] [] rfl rfl rfl
    (by decide) (by decide) rfl

/-- C9 amended.  The v5 request parser accepts every domain length octet L
in 0..=255, including L = 0: the constructed `Domain` name consists of
exactly the L bytes following the length octet (so it has at most 255
bytes, and MAY be empty — the nonemptiness invariant of the claim does not
hold). -/
theorem socks5_domain_parse_length (L : Nat) (d : List Nat) (p1 p2 : Nat)
    (rest : List Nat) (hL : L < 256) (hd : d.length = L)
    (hu : isValidUtf8 d = true) :
    Socks5.negotiate_request defaultHandler
        (5 :: 1 :: 0 :: 3 :: L :: (d ++ p1 :: p2 :: rest))
      = .ok ((.Connect, .Domain d (p1 * 256 + p2)), rest)
    ∧ d.length ≤ 255 := by
  refine ⟨?_, by omega⟩
  subst hd
  simp [Socks5.negotiate_request, readU8, readU16be, Socks5Command.tryFrom,
    Socks5AddrType.tryFrom, defaultHandler, readExact_append, hu]

/-- C9 witness: the amended theorem applied at L = 0 (the empty domain). -/
theorem socks5_domain_parse_length_witness :
    Socks5.negotiate_request defaultHandler
        (5 :: 1 :: 0 :: 3 :: 0 :: ([] ++ 0 :: 80 :: []))
      = .ok ((.Connect, .Domain [] (0 * 256 + 80)), [])
    ∧ ([] : List Nat).length ≤ 255 :=
  socks5_domain_parse_length 0 [] 0 80 [] (by decide) rfl rfl
